import Mathlib

/-!
Verification of the CryptoPodatki core (ingestion pipeline, rate resolution,
tax engine) against its specification.  The TypeScript sources are embedded
shallowly: JavaScript numbers are modelled as exact rationals (`ℚ`), JS
`undefined` as `Option`, thrown exceptions as `Except`, and the impure inputs
of the engine (`Date.now()`, `Math.random()`, the network rate source) as
explicit parameters.  Each definition mirrors one function of
`src/services/taxCalculator.ts`, `src/services/fileParserService` (the parser
half of the concatenated service file) or `src/services/nbpService.ts`.
-/

/- ### Models of the JavaScript built-ins used by the source -/

/-- Model of the JS string fallback idiom `a || b` (`a` possibly `undefined`):
the empty string is falsy, so it falls through to `b`. -/
def jsOr (a : Option String) (b : String) : String :=
  match a with
  | some s => if s = "" then b else s
  | none => b

/-- Model of JS numeric truthiness for a possibly-`undefined` number:
`undefined`, `0` (and `NaN`, which the sources never store) are falsy. -/
def jsTruthyQ (o : Option ℚ) : Bool :=
  match o with
  | some q => decide (q ≠ 0)
  | none => false

/-- Model of JS string truthiness for a possibly-`undefined` string:
`undefined` and `""` are falsy. -/
def jsTruthyStr (o : Option String) : Bool :=
  match o with
  | some s => decide (s ≠ "")
  | none => false

/-- Model of `Math.abs` on the (non-`NaN`) numbers the sources produce. -/
def jsAbs (q : ℚ) : ℚ := if q < 0 then -q else q

/-- Model of `Math.max` on two (non-`NaN`) numbers. -/
def jsMax (x y : ℚ) : ℚ := if x < y then y else x

/-- Model of `Math.round(x * 100) / 100`, the 2-decimal rounding applied to
every monetary field the engine returns.  `Math.round` rounds half away from
zero towards `+∞`, i.e. `⌊x + 1/2⌋`. -/
def round2 (q : ℚ) : ℚ := ((⌊q * 100 + 1 / 2⌋ : ℤ) : ℚ) / 100

/-- Decimal digits taken from the front of a character list, with the rest. -/
def takeDigits : List Char → List Char × List Char
  | [] => ([], [])
  | c :: cs =>
    if c.isDigit then
      let r := takeDigits cs
      (c :: r.1, r.2)
    else ([], c :: cs)

/-- Numeric value of a list of decimal digits. -/
def digitsVal (l : List Char) : ℕ := l.foldl (fun a c => a * 10 + (c.toNat - 48)) 0

/-- Model of the JS `parseFloat` built-in on the plain decimal literals the
exchange exports contain (optional sign, integer part, optional fraction;
trailing garbage is ignored).  `none` models the `NaN` result. -/
def jsParseFloatS (s : String) : Option ℚ :=
  let p : ℚ × List Char :=
    match s.toList with
    | '-' :: r => (-1, r)
    | '+' :: r => (1, r)
    | r => (1, r)
  let ip := takeDigits p.2
  match ip.2 with
  | '.' :: r3 =>
    let fp := takeDigits r3
    if ip.1.isEmpty ∧ fp.1.isEmpty then none
    else some (p.1 * ((digitsVal ip.1 : ℚ) + (digitsVal fp.1 : ℚ) / (10 : ℚ) ^ fp.1.length))
  | _ => if ip.1.isEmpty then none else some (p.1 * (digitsVal ip.1 : ℚ))

/-- Model of the row-parser idiom `parseFloat(field) || 0` on a possibly
missing field: an unparseable or missing value defaults to `0`. -/
def jsParseFloatOr0 (o : Option String) : ℚ :=
  (match o with
   | some s => jsParseFloatS s
   | none => none).getD 0

/-- Checks whether the second list starts with the first. -/
def subAt : List Char → List Char → Bool
  | [], _ => true
  | _ :: _, [] => false
  | a :: as, b :: bs => a == b && subAt as bs

/-- Substring occurrence test over character lists. -/
def hasSub (pat : List Char) : List Char → Bool
  | [] => subAt pat []
  | b :: bs => subAt pat (b :: bs) || hasSub pat bs

/-- Model of the JS `String.prototype.includes` built-in: `strIncludes s pat`
is `s.includes(pat)`. -/
def strIncludes (s pat : String) : Bool := hasSub pat.toList s.toList

/-- Lexicographic comparison of character lists, modelling the
string comparison JS `Array.prototype.sort()` applies by default. -/
def strLtb : List Char → List Char → Bool
  | [], [] => false
  | [], _ :: _ => true
  | _ :: _, [] => false
  | a :: as, b :: bs => if a < b then true else if b < a then false else strLtb as bs

/-- Insertion step of the default JS sort on numbers (string comparison). -/
def insertKey (x : Int) : List Int → List Int
  | [] => [x]
  | y :: ys => if strLtb (toString x).toList (toString y).toList then x :: y :: ys else y :: insertKey x ys

/-- Model of `Array.from(map.keys()).sort()` in `calculateTax`: the default
sort compares elements as strings (for the 4-digit years the engine produces
this coincides with numeric order). -/
def jsSortKeys (l : List Int) : List Int := l.foldr insertKey []

/- ### Data model (`src/types/index.ts`) -/

/-- The canonical transaction kinds (`TransactionType` in `src/types`). -/
inductive TransactionType where
  | buy
  | sell
  | crypto_swap
  | fee
  | transfer_in
  | transfer_out
  | payment
  | staking_reward
  | airdrop
  | unknown
deriving DecidableEq

/-- Coarse model of a JS `Date` value as the observations the sources make of
it: `getTime()` (`time`), `getFullYear()` (`year`) and validity.  No claim
inspects calendar arithmetic, so the calendar itself is not modelled. -/
structure JsDate where
  valid : Bool
  time : Int
  year : Int
deriving DecidableEq

/-- Model of the JS `Date` constructor on a string, at the granularity the
claims need: a string is parseable when it starts with a 4-digit year (the
ISO-style stamps of the exchange exports); anything else yields an invalid
date (JS `Invalid Date`, whose `getTime()` is `NaN`) rather than an error. -/
def jsNewDate (s : String) : JsDate :=
  let cs := s.toList
  if 4 ≤ cs.length ∧ (cs.take 4).all Char.isDigit then
    { valid := true, time := ((digitsVal (cs.take 4) : ℕ) : ℤ), year := ((digitsVal (cs.take 4) : ℕ) : ℤ) }
  else { valid := false, time := 0, year := 0 }

/-- `Transaction` of `src/types`: optional JS fields become `Option`. -/
structure Transaction where
  id : String
  date : JsDate
  type : TransactionType
  cryptoSymbol : String
  cryptoAmount : ℚ
  fiatAmount : ℚ
  fiatCurrency : String
  fee : Option ℚ := none
  feeCurrency : Option String := none
  exchangeName : Option String := none
  notes : Option String := none
  nbpExchangeRate : Option ℚ := none
  amountInPLN : Option ℚ := none
  feeInPLN : Option ℚ := none
deriving DecidableEq

/-- `ParsedFile` of `src/types` (the file-type tag kept as a plain string). -/
structure ParsedFile where
  fileName : String
  fileType : String
  transactions : List Transaction
  parseErrors : List String
  parsedAt : Int
deriving DecidableEq

/-- `TaxYear` of `src/types`. -/
structure TaxYear where
  year : Int
  revenue : ℚ
  currentYearCosts : ℚ
  previousYearsCosts : ℚ
  totalCosts : ℚ
  income : ℚ
  tax : ℚ
  carryForwardCosts : ℚ
  taxableTransactions : List Transaction
  acquisitionTransactions : List Transaction
deriving DecidableEq

/-- `TaxCalculation` of `src/types`; `createdAt`/`updatedAt` are the
`Date.now()`-style clock readings taken when the record is built. -/
structure TaxCalculation where
  id : String
  createdAt : Int
  updatedAt : Int
  name : String
  years : List TaxYear
  files : List ParsedFile
  totalRevenue : ℚ
  totalCosts : ℚ
  totalIncome : ℚ
  totalTax : ℚ
deriving DecidableEq

/-- A raw CSV/XLSX row as the parsers see it: field name to field value;
a missing key models a JS `undefined` field. -/
def Row := List (String × String)

/-- `TAX_RATE` of `src/constants`: the statutory 19% rate. -/
def TAX_RATE : ℚ := 19 / 100

/- ### Rate resolution (`src/services/nbpService.ts`)

The resolver's two HTTP queries (exact reference date, then the 7-day
widened range) are modelled by two `FetchOutcome` parameters describing
every behaviour the external source can exhibit; the process-wide memo
cache is omitted (it is a pure latency optimization keyed on the same
(currency, formatted date) inputs).  Exceptions are modelled as `Except`:
crucially, the reference-date formatting (`toISOString`, which throws on an
Invalid Date) happens before each function's `try` block, so that error is
not caught. -/

/-- One observable behaviour of a single `fetch` of the NBP API:
the request rejects, or a response arrives with its `ok` flag and a body
(`none` models a body on which `response.json()` / field access throws;
`some rates` the parsed list of `mid` rates, in ascending date order). -/
inductive FetchOutcome where
  | reject
  | resp (ok : Bool) (body : Option (List ℚ))
deriving DecidableEq

/-- `getFallbackRate`: the built-in approximate table, last resort. -/
def getFallbackRate (currencyCode : String) : ℚ :=
  let fallbackRates : List (String × ℚ) :=
    [("USD", 4), ("EUR", 43 / 10), ("GBP", 51 / 10), ("CHF", 45 / 10),
     ("AUD", 26 / 10), ("CAD", 3), ("JPY", 27 / 1000)]
  ((fallbackRates.lookup currencyCode.toUpper).getD 4)

/-- The throwing body of `getNearestNBPRate`'s `try` block: a non-`ok`
response throws, a malformed body throws, an empty rate list throws,
otherwise the most recent (last) rate of the window is returned. -/
def rangeAttempt (range : FetchOutcome) : Except String ℚ :=
  match range with
  | .reject => .error ("fetch failed")
  | .resp ok body =>
    if !ok then .error ("Failed to fetch NBP rate")
    else
      match body with
      | none => .error ("malformed response")
      | some rates =>
        match rates.getLast? with
        | none => .error ("No NBP rate found")
        | some r => .ok r

/-- `getLastBusinessDay`: copies the date, steps one day back, then walks
back over the two-day weekend.  The weekday walk-back is below the
granularity of the date model; what the claims observe is kept: the result
is earlier, and validity is preserved — on an Invalid Date `getDate()` is
`NaN`, `setDate(NaN)` keeps it invalid, and `getDay()` is `NaN` (neither 0
nor 6) so the loop never runs. -/
def getLastBusinessDay (date : JsDate) : JsDate :=
  { date with time := date.time - 1 }

/-- `formatDateForAPI`: `date.toISOString().split('T')[0]`.  `toISOString`
throws a `RangeError` on an Invalid Date; the string a valid date produces
is abstracted to the date's observable fields (it only feeds the query URL
and the omitted cache key). -/
def formatDateForAPI (date : JsDate) : Except String String :=
  if date.valid then Except.ok (toString date.year ++ "_" ++ toString date.time)
  else Except.error ("RangeError: Invalid time value")

/-- `getNearestNBPRate`: formats the window's two bounding dates (outside
its `try`, so an invalid `startDate` throws to the caller), then runs the
widened 7-day query, whose `catch` falls back to the approximate table. -/
def getNearestNBPRate (currencyCode : String) (startDate : JsDate) (range : FetchOutcome) : Except String ℚ :=
  match formatDateForAPI startDate with
  | Except.error e => Except.error e
  | Except.ok _ =>
    match formatDateForAPI { startDate with time := startDate.time - 7 } with
    | Except.error e => Except.error e
    | Except.ok _ =>
      match rangeAttempt range with
      | .ok r => Except.ok r
      | .error _ => Except.ok (getFallbackRate currencyCode)

/-- The body of `getNBPExchangeRate`'s `try` block (non-PLN case): a
rejected fetch throws; a non-`ok` response returns the widened query's
result directly; a malformed body throws in `response.json()`; an empty
rate list throws in `data.rates[0].mid`; otherwise the first rate is
returned.  `nearest` is the widened-query call's result. -/
def exactAttempt (exact : FetchOutcome) (nearest : Except String ℚ) : Except String ℚ :=
  match exact with
  | .reject => .error ("fetch failed")
  | .resp ok body =>
    if !ok then nearest
    else
      match body with
      | none => .error ("malformed response")
      | some rates =>
        match rates with
        | [] => .error ("rates[0] is undefined")
        | r :: _ => .ok r

/-- `getNBPExchangeRate`: PLN resolves to 1 with no query; otherwise the
reference date is computed and formatted BEFORE the `try` block — an
invalid transaction date therefore throws a `RangeError` to the caller —
then the exact-date attempt runs, whose `catch` hands over to
`getNearestNBPRate`. -/
def getNBPExchangeRate (currencyCode : String) (transactionDate : JsDate)
    (exact range : FetchOutcome) : Except String ℚ :=
  if currencyCode.toUpper = "PLN" then Except.ok 1
  else
    let rateDate := getLastBusinessDay transactionDate
    match formatDateForAPI rateDate with
    | Except.error e => Except.error e
    | Except.ok _ =>
      match exactAttempt exact (getNearestNBPRate currencyCode rateDate range) with
      | Except.ok r => Except.ok r
      | Except.error _ => getNearestNBPRate currencyCode rateDate range

/- ### Tax engine (`src/services/taxCalculator.ts`) -/

/-- `isTaxableSale`: selling for fiat or paying with crypto. -/
def isTaxableSale (transaction : Transaction) : Bool :=
  transaction.type == TransactionType.sell || transaction.type == TransactionType.payment

/-- `isDeductibleCost`: purchases, and fees whose note mentions `"sell"`. -/
def isDeductibleCost (transaction : Transaction) : Bool :=
  if transaction.type == TransactionType.buy then true
  else if transaction.type == TransactionType.fee &&
      (match transaction.notes with
       | some n => strIncludes n ("sell")
       | none => false) then true
  else false

/-- One step of `groupByYear`'s loop: append `tx` to its year's bucket,
creating the bucket at the end on first sight (JS `Map` iterates keys in
insertion order). -/
def addToGroup (y : Int) (tx : Transaction) : List (Int × List Transaction) → List (Int × List Transaction)
  | [] => [(y, [tx])]
  | (k, l) :: rest => if k = y then (k, l ++ [tx]) :: rest else (k, l) :: addToGroup y tx rest

/-- `groupByYear`: partition by `tx.date.getFullYear()`, keys in first-seen
order. -/
def groupByYear (transactions : List Transaction) : List (Int × List Transaction) :=
  transactions.foldl (fun groups tx => addToGroup tx.date.year tx groups) []

/-- The body of `calculatePLNAmounts`'s loop for one transaction.  The
network-backed `convertToPLN` is abstracted as the resolved-rate function
`rates` (currency and date to NBP mid rate), the engine's only impure
dependency. -/
def resolveTx (rates : String → JsDate → ℚ) (tx : Transaction) : Transaction :=
  let txCopy :=
    if tx.fiatCurrency ≠ "PLN" ∧ 0 < tx.fiatAmount then
      { tx with nbpExchangeRate := some (rates tx.fiatCurrency tx.date),
                amountInPLN := some (tx.fiatAmount * rates tx.fiatCurrency tx.date) }
    else
      { tx with amountInPLN := some tx.fiatAmount, nbpExchangeRate := some 1 }
  if jsTruthyQ tx.fee && jsTruthyStr tx.feeCurrency then
    if tx.feeCurrency.getD "" ≠ "PLN" then
      { txCopy with feeInPLN := some (tx.fee.getD 0 * rates (tx.feeCurrency.getD "") tx.date) }
    else { txCopy with feeInPLN := some (tx.fee.getD 0) }
  else txCopy

/-- `calculatePLNAmounts`: resolve every transaction's PLN equivalents. -/
def calculatePLNAmounts (rates : String → JsDate → ℚ) (transactions : List Transaction) : List Transaction :=
  transactions.map (resolveTx rates)

/-- `calculateYearTax`: the per-year computation.  All accumulation is
unrounded; each returned monetary field is rounded to 2 decimals. -/
def calculateYearTax (year : Int) (transactions : List Transaction) (carryForwardFromPreviousYear : ℚ) : TaxYear :=
  let taxableSales := transactions.filter (fun t => isTaxableSale t)
  let acquisitions := transactions.filter (fun t => isDeductibleCost t)
  let revenue := taxableSales.foldl (fun sum tx => sum + tx.amountInPLN.getD 0) 0
  let currentYearCosts := acquisitions.foldl
    (fun sum tx => sum + (tx.amountInPLN.getD 0 + (if jsTruthyQ tx.feeInPLN then tx.feeInPLN.getD 0 else 0))) 0
  let previousYearsCosts := carryForwardFromPreviousYear
  let totalCosts := currentYearCosts + previousYearsCosts
  let income := jsMax (revenue - totalCosts) 0
  let carryForwardCosts := jsMax (totalCosts - revenue) 0
  let tax := income * TAX_RATE
  { year := year
    revenue := round2 revenue
    currentYearCosts := round2 currentYearCosts
    previousYearsCosts := round2 previousYearsCosts
    totalCosts := round2 totalCosts
    income := round2 income
    tax := round2 tax
    carryForwardCosts := round2 carryForwardCosts
    taxableTransactions := taxableSales
    acquisitionTransactions := acquisitions }

/-- Insertion step of the stable ascending sort by `date.getTime()`. -/
def insertTx (x : Transaction) : List Transaction → List Transaction
  | [] => [x]
  | y :: ys => if y.date.time ≤ x.date.time then y :: insertTx x ys else x :: y :: ys

/-- `allTransactions.sort((a, b) => a.date.getTime() - b.date.getTime())`:
stable ascending sort by timestamp. -/
def sortByTime (l : List Transaction) : List Transaction :=
  l.foldl (fun acc x => insertTx x acc) []

/-- The per-year loop of `calculateTax`: each year consumes the previous
year's (already rounded) `carryForwardCosts` field. -/
def runYears (byYear : List (Int × List Transaction)) : List Int → ℚ → List TaxYear
  | [], _ => []
  | y :: ys, carryForward =>
    let taxYear := calculateYearTax y ((byYear.lookup y).getD []) carryForward
    taxYear :: runYears byYear ys taxYear.carryForwardCosts

/-- `generateId`: built from `Date.now()` and a `Math.random()` suffix,
passed in as the explicit impure inputs `now` and `rand`. -/
def generateId (now : Int) (rand : String) : String :=
  "calc_" ++ toString now ++ "_" ++ rand

/-- `calculateTax`: the main engine.  `rates` stands for the resolved NBP
rates, `now`/`rand` for the clock and random generator read when building
the result record. -/
def calculateTax (rates : String → JsDate → ℚ) (files : List ParsedFile)
    (previousCarryForwardCosts : ℚ) (calculationName : String) (now : Int) (rand : String) : TaxCalculation :=
  let allTransactions := files.foldl (fun acc f => acc ++ f.transactions) []
  let sorted := sortByTime allTransactions
  let transactionsWithPLN := calculatePLNAmounts rates sorted
  let byYear := groupByYear transactionsWithPLN
  let years := jsSortKeys (byYear.map (fun p => p.1))
  let taxYears := runYears byYear years previousCarryForwardCosts
  let totalRevenue := taxYears.foldl (fun sum y => sum + y.revenue) 0
  let totalCosts := taxYears.foldl (fun sum y => sum + y.currentYearCosts) 0
  let totalIncome := taxYears.foldl (fun sum y => sum + y.income) 0
  let totalTax := taxYears.foldl (fun sum y => sum + y.tax) 0
  { id := generateId now rand
    createdAt := now
    updatedAt := now
    name := calculationName
    years := taxYears
    files := files
    totalRevenue := round2 totalRevenue
    totalCosts := round2 totalCosts
    totalIncome := round2 totalIncome
    totalTax := round2 totalTax }

/- ### Row parsers (file parser service) -/

/-- `parseBinanceRow`'s operation-vocabulary mapping to a canonical kind. -/
def binanceKind (operation : String) (change : ℚ) : TransactionType :=
  if strIncludes operation ("buy") || strIncludes operation ("deposit") then
    (if 0 < change then TransactionType.buy else TransactionType.sell)
  else if strIncludes operation ("sell") || strIncludes operation ("withdraw") then TransactionType.sell
  else if strIncludes operation ("fee") then TransactionType.fee
  else if strIncludes operation ("transfer") then
    (if 0 < change then TransactionType.transfer_in else TransactionType.transfer_out)
  else TransactionType.unknown

/-- `parseBinanceRow`.  The `Date.now()` read used in the generated id is the
explicit `now` parameter. -/
def parseBinanceRow (now : Int) (row : Row) (_headers : List String) (index : Nat) : Option Transaction :=
  let operation := ((row.lookup ("Operation")).map String.toLower).getD ("")
  let coin := (row.lookup ("Coin")).getD ("")
  let change := jsParseFloatOr0 (row.lookup ("Change"))
  let dateStr := jsOr (row.lookup ("UTC_Time")) (jsOr (row.lookup ("Date")) (""))
  if dateStr = "" ∨ coin = "" then none
  else some
    { id := "binance_" ++ toString index ++ "_" ++ toString now
      date := jsNewDate dateStr
      type := binanceKind operation change
      cryptoSymbol := coin
      cryptoAmount := jsAbs change
      fiatAmount := 0
      fiatCurrency := "USD"
      exchangeName := some ("Binance") }

/-- The `pair.replace(/USD|EUR|PLN|GBP/gi, '')` step of `parseKrakenRow`:
left-to-right scan deleting case-insensitive occurrences of the fiat codes. -/
def stripCodes : List Char → List Char
  | [] => []
  | c :: cs =>
    if subAt (("USD").toList) ((c :: cs).take 3 |>.map Char.toUpper) ||
       subAt (("EUR").toList) ((c :: cs).take 3 |>.map Char.toUpper) ||
       subAt (("PLN").toList) ((c :: cs).take 3 |>.map Char.toUpper) ||
       subAt (("GBP").toList) ((c :: cs).take 3 |>.map Char.toUpper) then
      stripCodes (cs.drop 2)
    else c :: stripCodes cs
termination_by l => l.length
decreasing_by
  all_goals simp [List.length_drop]
  all_goals omega

/-- `parseKrakenRow`: note that `vol` and `cost` are passed through with
their sign, unlike the absolute values other parsers take. -/
def parseKrakenRow (now : Int) (row : Row) (_headers : List String) (index : Nat) : Option Transaction :=
  let txType := ((row.lookup ("type")).map String.toLower).getD ("")
  let pair := (row.lookup ("pair")).getD ("")
  let cost := jsParseFloatOr0 (row.lookup ("cost"))
  let vol := jsParseFloatOr0 (row.lookup ("vol"))
  let fee := jsParseFloatOr0 (row.lookup ("fee"))
  let dateStr := (row.lookup ("time")).getD ("")
  if dateStr = "" ∨ pair = "" then none
  else
    let cryptoSymbol := String.mk ((stripCodes pair.toList).filter (fun ch => ch ≠ 'X'))
    let type := if txType = "buy" then TransactionType.buy
      else if txType = "sell" then TransactionType.sell
      else TransactionType.unknown
    some
      { id := "kraken_" ++ toString index ++ "_" ++ toString now
        date := jsNewDate dateStr
        type := type
        cryptoSymbol := cryptoSymbol
        cryptoAmount := vol
        fiatAmount := cost
        fiatCurrency := "USD"
        fee := some fee
        feeCurrency := some ("USD")
        exchangeName := some ("Kraken") }

/-- `parseCoinbaseRow`: like Kraken, quantities and totals keep their sign. -/
def parseCoinbaseRow (now : Int) (row : Row) (_headers : List String) (index : Nat) : Option Transaction :=
  let txType := ((row.lookup ("Transaction Type")).getD ("")).toLower
  let asset := (row.lookup ("Asset")).getD ("")
  let quantity := jsParseFloatOr0 (row.lookup ("Quantity Transacted"))
  let spotPrice := jsParseFloatOr0 (row.lookup ("Spot Price at Transaction"))
  let total := jsParseFloatOr0 (row.lookup ("Total (inclusive of fees)"))
  let fees := jsParseFloatOr0 (row.lookup ("Fees"))
  let dateStr := (row.lookup ("Timestamp")).getD ("")
  if dateStr = "" ∨ asset = "" then none
  else
    let type := if txType = "buy" then TransactionType.buy
      else if txType = "sell" then TransactionType.sell
      else if txType = "receive" then TransactionType.transfer_in
      else if txType = "send" then TransactionType.transfer_out
      else TransactionType.unknown
    some
      { id := "coinbase_" ++ toString index ++ "_" ++ toString now
        date := jsNewDate dateStr
        type := type
        cryptoSymbol := asset
        cryptoAmount := quantity
        fiatAmount := if total ≠ 0 then total else quantity * spotPrice
        fiatCurrency := "USD"
        fee := some fees
        feeCurrency := some ("USD")
        exchangeName := some ("Coinbase") }

/-- `parseBitBayRow`. -/
def parseBitBayRow (now : Int) (row : Row) (_headers : List String) (index : Nat) : Option Transaction :=
  let typ := (jsOr (row.lookup ("Typ")) (jsOr (row.lookup ("Type")) (""))).toLower
  let waluta := jsOr (row.lookup ("Waluta")) (jsOr (row.lookup ("Currency")) (""))
  let kwota := (jsParseFloatS (jsOr (row.lookup ("Kwota")) (jsOr (row.lookup ("Amount")) ("0")))).getD 0
  let dateStr := jsOr (row.lookup ("Data")) (jsOr (row.lookup ("Date")) (""))
  if dateStr = "" ∨ waluta = "" then none
  else
    let type := if strIncludes typ ("kupno") || strIncludes typ ("buy") then TransactionType.buy
      else if strIncludes typ ("sprzedaż") || strIncludes typ ("sell") then TransactionType.sell
      else if strIncludes typ ("wpłata") || strIncludes typ ("deposit") then TransactionType.transfer_in
      else if strIncludes typ ("wypłata") || strIncludes typ ("withdraw") then TransactionType.transfer_out
      else if strIncludes typ ("prowizja") || strIncludes typ ("fee") then TransactionType.fee
      else TransactionType.unknown
    some
      { id := "bitbay_" ++ toString index ++ "_" ++ toString now
        date := jsNewDate dateStr
        type := type
        cryptoSymbol := waluta
        cryptoAmount := jsAbs kwota
        fiatAmount := 0
        fiatCurrency := "PLN"
        exchangeName := some ("BitBay/Zonda") }

/-- `parseGenericRow`: column-name guessing over curated synonym sets; only
the date column is required. -/
def parseGenericRow (now : Int) (row : Row) (headers : List String) (index : Nat) : Option Transaction :=
  let dateKeys := ["date", "data", "time", "timestamp", "datetime", "utc_time"]
  let dateKey := headers.find? (fun h => dateKeys.contains h.toLower)
  let typeKeys := ["type", "typ", "operation", "side", "action"]
  let typeKey := headers.find? (fun h => typeKeys.contains h.toLower)
  let amountKeys := ["amount", "kwota", "quantity", "vol", "volume", "size"]
  let amountKey := headers.find? (fun h => amountKeys.contains h.toLower)
  let symbolKeys := ["symbol", "coin", "asset", "currency", "waluta", "pair"]
  let symbolKey := headers.find? (fun h => symbolKeys.contains h.toLower)
  let priceKeys := ["price", "cena", "total", "cost", "value", "wartość"]
  let priceKey := headers.find? (fun h => priceKeys.contains h.toLower)
  match dateKey with
  | none => none
  | some dk =>
    let dateStr := (row.lookup dk).getD ("")
    if dateStr = "" then none
    else
      let typeStr := match typeKey with
        | some k => ((row.lookup k).getD ("")).toLower
        | none => ""
      let type := if strIncludes typeStr ("buy") || strIncludes typeStr ("kup") then TransactionType.buy
        else if strIncludes typeStr ("sell") || strIncludes typeStr ("sprzed") then TransactionType.sell
        else TransactionType.unknown
      some
        { id := "generic_" ++ toString index ++ "_" ++ toString now
          date := jsNewDate dateStr
          type := type
          cryptoSymbol := match symbolKey with
            | some k => (row.lookup k).getD ("")
            | none => "UNKNOWN"
          cryptoAmount := match amountKey with
            | some k => jsAbs (jsParseFloatOr0 (row.lookup k))
            | none => 0
          fiatAmount := match priceKey with
            | some k => jsAbs (jsParseFloatOr0 (row.lookup k))
            | none => 0
          fiatCurrency := "PLN"
          exchangeName := some ("Custom") }

/- ### Specification-side definitions (used to state refinement claims) -/

/-- Spec wording of a year's revenue: the sum of PLN-equivalent amounts of
the taxable disposals. -/
def revenueSpec (txs : List Transaction) : ℚ :=
  ((txs.filter (fun t => isTaxableSale t)).map (fun t => t.amountInPLN.getD 0)).sum

/-- Spec wording of a year's current-year cost: the sum of PLN-equivalent
amounts of the deductible-cost transactions, each increased by its own
resolved fee when present. -/
def costSpec (txs : List Transaction) : ℚ :=
  ((txs.filter (fun t => isDeductibleCost t)).map (fun t => t.amountInPLN.getD 0 + t.feeInPLN.getD 0)).sum

/-- Spec wording of the rate-resolution chain (§4.4), stated for the
refinement comparison with `getNBPExchangeRate`: the local currency resolves
to 1; otherwise the exact reference-date query's rate when it yields one,
else the most recent rate of the 7-day widened query when that yields any,
else the built-in approximate fallback table. -/
def rateChainSpec (currencyCode : String) (exact range : FetchOutcome) : ℚ :=
  if currencyCode.toUpper = "PLN" then 1
  else
    match exact with
    | .resp true (some (r :: _)) => r
    | _ =>
      match range with
      | .resp true (some rates) =>
        match rates.getLast? with
        | some r => r
        | none => getFallbackRate currencyCode
      | _ => getFallbackRate currencyCode

/-- A rational is a whole number of 1/100ths (a 2-decimal value). -/
def is2dp (q : ℚ) : Prop := ∃ k : ℤ, q = (k : ℚ) / 100

/-- Non-negativity of the amounts of a parser result (vacuous for a dropped
row). -/
def optNonneg : Option Transaction → Prop
  | some t => 0 ≤ t.cryptoAmount ∧ 0 ≤ t.fiatAmount
  | none => True

/-- Carry-forward conservation between the `i`-th and `i+1`-st produced
years (vacuous when either is absent). -/
def carryChain (l : List TaxYear) (i : ℕ) : Prop :=
  match l.get? i, l.get? (i + 1) with
  | some a, some b => b.previousYearsCosts = a.carryForwardCosts
  | _, _ => True

/-- Spec wording of fee deductibility: the transaction's attached free-text
note contains the substring `"sell"`. -/
def notesSell (t : Transaction) : Bool :=
  match t.notes with
  | some n => strIncludes n ("sell")
  | none => false

/- ### Concrete fixtures used by counterexamples and witnesses -/

/-- A crypto-to-crypto exchange transaction (C4 witness). -/
def c4SwapTx : Transaction :=
  { id := "swap1", date := ⟨true, 0, 2020⟩, type := TransactionType.crypto_swap,
    cryptoSymbol := "BTC", cryptoAmount := 1, fiatAmount := 0, fiatCurrency := "PLN" }

/-- A fee transaction with no note (C5 witness). -/
def c5FeeTx : Transaction :=
  { id := "fee1", date := ⟨true, 0, 2020⟩, type := TransactionType.fee,
    cryptoSymbol := "BTC", cryptoAmount := 0, fiatAmount := 3, fiatCurrency := "PLN" }

/-- C1: a resolved acquisition of 0.014 PLN (not a 2-decimal value). -/
def c1BuyR : Transaction :=
  { id := "b1c1", date := ⟨true, 0, 2020⟩, type := TransactionType.buy,
    cryptoSymbol := "BTC", cryptoAmount := 1, fiatAmount := 14 / 1000, fiatCurrency := "PLN",
    nbpExchangeRate := some 1, amountInPLN := some (14 / 1000) }

/-- Fixed resolved rates for the C2 counterexample (all PLN anyway). -/
def c2Rates : String → JsDate → ℚ := fun _ _ => 1

/-- C2: a 2020 acquisition of 0.014 PLN. -/
def c2Buy : Transaction :=
  { id := "b1", date := ⟨true, 0, 2020⟩, type := TransactionType.buy,
    cryptoSymbol := "BTC", cryptoAmount := 1, fiatAmount := 14 / 1000, fiatCurrency := "PLN" }

/-- C2: a 2021 disposal of 0.018 PLN. -/
def c2Sell : Transaction :=
  { id := "s1", date := ⟨true, 1, 2021⟩, type := TransactionType.sell,
    cryptoSymbol := "BTC", cryptoAmount := 1, fiatAmount := 18 / 1000, fiatCurrency := "PLN" }

/-- C2: the input batch. -/
def c2File : ParsedFile :=
  { fileName := "c2.csv", fileType := "csv", transactions := [c2Buy, c2Sell],
    parseErrors := [], parsedAt := 0 }

/-- C2: `c2Buy` after amount resolution. -/
def c2BuyR : Transaction := { c2Buy with amountInPLN := some (14 / 1000), nbpExchangeRate := some 1 }

/-- C2: `c2Sell` after amount resolution. -/
def c2SellR : Transaction := { c2Sell with amountInPLN := some (18 / 1000), nbpExchangeRate := some 1 }

/-- Fixed resolved rates for the C3 counterexample. -/
def c3Rates : String → JsDate → ℚ := fun _ _ => 1

/-- C3: a 2020 acquisition of 100 PLN. -/
def c3Buy : Transaction :=
  { id := "b3", date := ⟨true, 0, 2020⟩, type := TransactionType.buy,
    cryptoSymbol := "BTC", cryptoAmount := 1, fiatAmount := 100, fiatCurrency := "PLN" }

/-- C3: a 2021 disposal of 100 PLN. -/
def c3Sell : Transaction :=
  { id := "s3", date := ⟨true, 1, 2021⟩, type := TransactionType.sell,
    cryptoSymbol := "BTC", cryptoAmount := 1, fiatAmount := 100, fiatCurrency := "PLN" }

/-- C3: the input batch. -/
def c3File : ParsedFile :=
  { fileName := "c3.csv", fileType := "csv", transactions := [c3Buy, c3Sell],
    parseErrors := [], parsedAt := 0 }

/-- C3: `c3Buy` after amount resolution. -/
def c3BuyR : Transaction := { c3Buy with amountInPLN := some 100, nbpExchangeRate := some 1 }

/-- C3: `c3Sell` after amount resolution. -/
def c3SellR : Transaction := { c3Sell with amountInPLN := some 100, nbpExchangeRate := some 1 }

/-- C6: a Binance row whose date string is nonempty but unparseable. -/
def c6GarbageRow : Row :=
  [("UTC_Time", "garbage"), ("Operation", "buy"), ("Coin", "BTC"), ("Change", "1")]

/-- C6: a valid Binance row with no `Change` field. -/
def c6NoChangeRow : Row :=
  [("UTC_Time", "2021-01-01 10:00:00"), ("Operation", "buy"), ("Coin", "BTC")]

/-- C7: a Kraken ledger row with negative `vol` and `cost`. -/
def c7KrakenRow : Row :=
  [("type", "sell"), ("pair", "XBTUSD"), ("cost", "-10"), ("vol", "-2"),
   ("fee", "0"), ("time", "2021-01-01 10:00:00")]

/-- C7: a Coinbase row with negative quantity and total. -/
def c7CoinbaseRow : Row :=
  [("Transaction Type", "sell"), ("Asset", "BTC"), ("Quantity Transacted", "-3"),
   ("Spot Price at Transaction", "10"), ("Total (inclusive of fees)", "-30"),
   ("Fees", "0"), ("Timestamp", "2021-01-02 10:00:00")]

/-- Fixed resolved rates for the C9 counterexample. -/
def c9Rates : String → JsDate → ℚ := fun _ _ => 4

/-- C9: one plain PLN acquisition. -/
def c9Tx : Transaction :=
  { id := "b9", date := ⟨true, 0, 2020⟩, type := TransactionType.buy,
    cryptoSymbol := "BTC", cryptoAmount := 1, fiatAmount := 100, fiatCurrency := "PLN" }

/-- C9: the input batch. -/
def c9File : ParsedFile :=
  { fileName := "c9.csv", fileType := "csv", transactions := [c9Tx],
    parseErrors := [], parsedAt := 0 }

/-- C10: a foreign-currency transaction with zero fiat amount but a fee. -/
def c10FeeTx : Transaction :=
  { id := "f10", date := ⟨true, 0, 2021⟩, type := TransactionType.sell,
    cryptoSymbol := "BTC", cryptoAmount := 1, fiatAmount := 0, fiatCurrency := "USD",
    fee := some 5, feeCurrency := some ("USD") }

/-- C10: a foreign-currency transaction with zero fiat amount and no fee. -/
def c10WTx : Transaction :=
  { id := "w10", date := ⟨true, 0, 2021⟩, type := TransactionType.sell,
    cryptoSymbol := "BTC", cryptoAmount := 1, fiatAmount := 0, fiatCurrency := "USD" }

/-- C10: one resolved-rate source. -/
def c10RatesA : String → JsDate → ℚ := fun _ _ => 4

/-- C10: another resolved-rate source. -/
def c10RatesB : String → JsDate → ℚ := fun _ _ => 5

/- ### Helper lemmas -/

theorem foldl_add_eq (f : Transaction → ℚ) : ∀ (l : List Transaction) (a : ℚ),
    l.foldl (fun sum tx => sum + f tx) a = a + (l.map f).sum
  | [], a => by simp
  | x :: xs, a => by
    simp only [List.foldl_cons, List.map_cons, List.sum_cons, foldl_add_eq f xs]
    ring

theorem foldlTY_add_eq (f : TaxYear → ℚ) : ∀ (l : List TaxYear) (a : ℚ),
    l.foldl (fun sum y => sum + f y) a = a + (l.map f).sum
  | [], a => by simp
  | x :: xs, a => by
    simp only [List.foldl_cons, List.map_cons, List.sum_cons, foldlTY_add_eq f xs]
    ring

theorem jsMax_eq_max (x y : ℚ) : jsMax x y = max x y := by
  unfold jsMax
  rcases lt_or_ge x y with h | h
  · rw [if_pos h, max_eq_right h.le]
  · rw [if_neg (not_lt.mpr h), max_eq_left h]

theorem round2_nonneg {q : ℚ} (h : 0 ≤ q) : 0 ≤ round2 q := by
  unfold round2
  apply div_nonneg _ (by norm_num)
  have hf : (0 : ℤ) ≤ ⌊q * 100 + 1 / 2⌋ := Int.le_floor.mpr (by push_cast; linarith)
  exact_mod_cast hf

theorem round2_is2dp (q : ℚ) : is2dp (round2 q) := ⟨⌊q * 100 + 1 / 2⌋, rfl⟩

theorem is2dp_round2_eq {q : ℚ} (h : is2dp q) : round2 q = q := by
  obtain ⟨k, rfl⟩ := h
  unfold round2
  rw [div_mul_cancel₀ _ (by norm_num : (100 : ℚ) ≠ 0)]
  rw [show ((k : ℚ) + 1 / 2) = ((k : ℤ) : ℚ) + (1 / 2 : ℚ) by norm_num]
  rw [Int.floor_int_add]
  norm_num

theorem is2dp_sum : ∀ (l : List ℚ), (∀ q ∈ l, is2dp q) → is2dp l.sum
  | [], _ => ⟨0, by simp⟩
  | x :: xs, h => by
    obtain ⟨k, hk⟩ := h x (by simp)
    obtain ⟨m, hm⟩ := is2dp_sum xs (fun q hq => h q (by simp [hq]))
    refine ⟨k + m, ?_⟩
    simp only [List.sum_cons, hk, hm]
    push_cast
    ring

theorem feeTerm_eq (o : Option ℚ) : (if jsTruthyQ o then o.getD 0 else 0) = o.getD 0 := by
  cases o with
  | none => simp [jsTruthyQ]
  | some q => by_cases hq : q = 0 <;> simp [jsTruthyQ, hq]

theorem cyt_revenue (y : Int) (txs : List Transaction) (c : ℚ) :
    (calculateYearTax y txs c).revenue =
      round2 ((txs.filter (fun t => isTaxableSale t)).foldl (fun sum tx => sum + tx.amountInPLN.getD 0) 0) := rfl

theorem cyt_costs (y : Int) (txs : List Transaction) (c : ℚ) :
    (calculateYearTax y txs c).currentYearCosts =
      round2 ((txs.filter (fun t => isDeductibleCost t)).foldl
        (fun sum tx => sum + (tx.amountInPLN.getD 0 + (if jsTruthyQ tx.feeInPLN then tx.feeInPLN.getD 0 else 0))) 0) := rfl

theorem cyt_prev (y : Int) (txs : List Transaction) (c : ℚ) :
    (calculateYearTax y txs c).previousYearsCosts = round2 c := rfl

theorem cyt_total (y : Int) (txs : List Transaction) (c : ℚ) :
    (calculateYearTax y txs c).totalCosts =
      round2 (((txs.filter (fun t => isDeductibleCost t)).foldl
        (fun sum tx => sum + (tx.amountInPLN.getD 0 + (if jsTruthyQ tx.feeInPLN then tx.feeInPLN.getD 0 else 0))) 0) + c) := rfl

theorem cyt_income (y : Int) (txs : List Transaction) (c : ℚ) :
    (calculateYearTax y txs c).income =
      round2 (jsMax (((txs.filter (fun t => isTaxableSale t)).foldl (fun sum tx => sum + tx.amountInPLN.getD 0) 0) -
        (((txs.filter (fun t => isDeductibleCost t)).foldl
          (fun sum tx => sum + (tx.amountInPLN.getD 0 + (if jsTruthyQ tx.feeInPLN then tx.feeInPLN.getD 0 else 0))) 0) + c)) 0) := rfl

theorem cyt_tax (y : Int) (txs : List Transaction) (c : ℚ) :
    (calculateYearTax y txs c).tax =
      round2 (jsMax (((txs.filter (fun t => isTaxableSale t)).foldl (fun sum tx => sum + tx.amountInPLN.getD 0) 0) -
        (((txs.filter (fun t => isDeductibleCost t)).foldl
          (fun sum tx => sum + (tx.amountInPLN.getD 0 + (if jsTruthyQ tx.feeInPLN then tx.feeInPLN.getD 0 else 0))) 0) + c)) 0 * TAX_RATE) := rfl

theorem cyt_carry (y : Int) (txs : List Transaction) (c : ℚ) :
    (calculateYearTax y txs c).carryForwardCosts =
      round2 (jsMax ((((txs.filter (fun t => isDeductibleCost t)).foldl
        (fun sum tx => sum + (tx.amountInPLN.getD 0 + (if jsTruthyQ tx.feeInPLN then tx.feeInPLN.getD 0 else 0))) 0) + c) -
        ((txs.filter (fun t => isTaxableSale t)).foldl (fun sum tx => sum + tx.amountInPLN.getD 0) 0)) 0) := rfl

theorem revenue_fold_eq (txs : List Transaction) :
    (txs.filter (fun t => isTaxableSale t)).foldl (fun sum tx => sum + tx.amountInPLN.getD 0) 0 = revenueSpec txs := by
  rw [revenueSpec, foldl_add_eq (fun tx => tx.amountInPLN.getD 0), zero_add]

theorem cost_fold_eq (txs : List Transaction) :
    (txs.filter (fun t => isDeductibleCost t)).foldl
      (fun sum tx => sum + (tx.amountInPLN.getD 0 + (if jsTruthyQ tx.feeInPLN then tx.feeInPLN.getD 0 else 0))) 0 = costSpec txs := by
  have hbody : (fun (sum : ℚ) (tx : Transaction) =>
      sum + (tx.amountInPLN.getD 0 + (if jsTruthyQ tx.feeInPLN then tx.feeInPLN.getD 0 else 0))) =
      fun sum tx => sum + (tx.amountInPLN.getD 0 + tx.feeInPLN.getD 0) := by
    funext s t
    rw [feeTerm_eq]
  rw [costSpec, hbody, foldl_add_eq (fun tx => tx.amountInPLN.getD 0 + tx.feeInPLN.getD 0), zero_add]

/- ### Claim theorems -/

/-- C1: for every one-year transaction list and incoming carry-forward `c`,
`calculateYearTax` returns the TaxYear whose revenue is the sum of
PLN-equivalent amounts of taxable disposals, whose current-year cost is the
sum over deductible-cost transactions of amount plus resolved fee, with
totalCosts = currentYearCosts + c, income = max(revenue − totalCosts, 0),
tax = income · 0.19 and carryForwardCosts = max(totalCosts − revenue, 0) —
each field as its 2-decimal rounding, the final-figure rounding the spec
prescribes — and income ≥ 0 and carryForwardCosts ≥ 0 always hold. -/
theorem claim1_year_tax_formulas (year : Int) (txs : List Transaction) (c : ℚ) :
    (calculateYearTax year txs c).revenue = round2 (revenueSpec txs) ∧
    (calculateYearTax year txs c).currentYearCosts = round2 (costSpec txs) ∧
    (calculateYearTax year txs c).totalCosts = round2 (costSpec txs + c) ∧
    (calculateYearTax year txs c).income = round2 (max (revenueSpec txs - (costSpec txs + c)) 0) ∧
    (calculateYearTax year txs c).tax = round2 (max (revenueSpec txs - (costSpec txs + c)) 0 * (19 / 100)) ∧
    (calculateYearTax year txs c).carryForwardCosts = round2 (max ((costSpec txs + c) - revenueSpec txs) 0) ∧
    0 ≤ (calculateYearTax year txs c).income ∧
    0 ≤ (calculateYearTax year txs c).carryForwardCosts := by
  refine ⟨?_, ?_, ?_, ?_, ?_, ?_, ?_, ?_⟩
  · rw [cyt_revenue, revenue_fold_eq]
  · rw [cyt_costs, cost_fold_eq]
  · rw [cyt_total, cost_fold_eq]
  · rw [cyt_income, revenue_fold_eq, cost_fold_eq, jsMax_eq_max]
  · rw [cyt_tax, revenue_fold_eq, cost_fold_eq, jsMax_eq_max, TAX_RATE]
  · rw [cyt_carry, revenue_fold_eq, cost_fold_eq, jsMax_eq_max]
  · rw [cyt_income]
    exact round2_nonneg (by rw [jsMax_eq_max]; exact le_max_right _ _)
  · rw [cyt_carry]
    exact round2_nonneg (by rw [jsMax_eq_max]; exact le_max_right _ _)

theorem filter_nonswap (p : Transaction → Bool)
    (hp : ∀ t : Transaction, t.type = TransactionType.crypto_swap → p t = false) :
    ∀ txs : List Transaction,
      (txs.filter (fun t => !(t.type == TransactionType.crypto_swap))).filter p = txs.filter p
  | [] => rfl
  | t :: ts => by
    by_cases hs : t.type = TransactionType.crypto_swap
    · simp only [List.filter_cons, hs, hp t hs,
        show (TransactionType.crypto_swap == TransactionType.crypto_swap) = true from rfl]
      simpa using filter_nonswap p hp ts
    · have hb : (t.type == TransactionType.crypto_swap) = false := by
        simpa using hs
      simp only [List.filter_cons, hb, Bool.not_false, if_true]
      rw [filter_nonswap p hp ts]

/-- C4: a crypto-to-crypto exchange transaction is neither a taxable
disposal nor a deductible cost, so deleting all `crypto_swap` transactions
from a year's input leaves the computed TaxYear unchanged — in any
surrounding transaction set such a transaction contributes exactly 0 to
revenue and to cost. -/
theorem claim4_swap_exempt :
    (∀ t : Transaction, t.type = TransactionType.crypto_swap →
      isTaxableSale t = false ∧ isDeductibleCost t = false) ∧
    (∀ (year : Int) (txs : List Transaction) (c : ℚ),
      calculateYearTax year (txs.filter (fun t => !(t.type == TransactionType.crypto_swap))) c =
        calculateYearTax year txs c) := by
  constructor
  · intro t h
    constructor
    · simp only [isTaxableSale, h]
      decide
    · simp [isDeductibleCost, h,
        show (TransactionType.crypto_swap == TransactionType.buy) = false from rfl,
        show (TransactionType.crypto_swap == TransactionType.fee) = false from rfl]
  · intro year txs c
    have h1 := filter_nonswap (fun t => isTaxableSale t)
      (fun t ht => by simp only [isTaxableSale, ht]; decide) txs
    have h2 := filter_nonswap (fun t => isDeductibleCost t)
      (fun t ht => by
        simp [isDeductibleCost, ht,
          show (TransactionType.crypto_swap == TransactionType.buy) = false from rfl,
          show (TransactionType.crypto_swap == TransactionType.fee) = false from rfl]) txs
    simp only [calculateYearTax, h1, h2]

/-- C4 witness: the hypotheses of `claim4_swap_exempt` hold at a concrete
swap transaction, and the conclusions follow there. -/
theorem claim4_swap_exempt_witness :
    c4SwapTx.type = TransactionType.crypto_swap ∧
    (isTaxableSale c4SwapTx = false ∧ isDeductibleCost c4SwapTx = false) ∧
    calculateYearTax 2020 ([c4SwapTx].filter (fun t => !(t.type == TransactionType.crypto_swap))) 7 =
      calculateYearTax 2020 [c4SwapTx] 7 :=
  ⟨rfl, claim4_swap_exempt.1 c4SwapTx rfl, claim4_swap_exempt.2 2020 [c4SwapTx] 7⟩

/-- C5: a transaction is a deductible cost exactly when it is a purchase,
or a fee whose attached note contains the substring "sell"; a fee with no
note is never deductible. -/
theorem claim5_deductible_iff (t : Transaction) :
    (isDeductibleCost t = true ↔
      (t.type = TransactionType.buy ∨ (t.type = TransactionType.fee ∧ notesSell t = true))) ∧
    (t.type = TransactionType.fee → t.notes = none → isDeductibleCost t = false) := by
  constructor
  · unfold isDeductibleCost notesSell
    cases htype : t.type <;> cases hnotes : t.notes <;> simp [htype, hnotes]
  · intro hf hn
    unfold isDeductibleCost
    simp [hf, hn]

/-- C5 witness: the second part's hypotheses hold at a concrete note-less
fee transaction, which is indeed not deductible. -/
theorem claim5_deductible_iff_witness :
    (c5FeeTx.type = TransactionType.fee ∧ c5FeeTx.notes = none) ∧
    isDeductibleCost c5FeeTx = false :=
  ⟨⟨rfl, rfl⟩, (claim5_deductible_iff c5FeeTx).2 rfl rfl⟩

theorem nearest_eq (currencyCode : String) (startDate : JsDate) (range : FetchOutcome)
    (hvalid : startDate.valid = true) :
    getNearestNBPRate currencyCode startDate range =
      Except.ok
        (match range with
         | FetchOutcome.resp true (some rates) =>
           (match rates.getLast? with
            | some r => r
            | none => getFallbackRate currencyCode)
         | _ => getFallbackRate currencyCode) := by
  unfold getNearestNBPRate rangeAttempt formatDateForAPI
  simp only [hvalid, if_true]
  cases range with
  | reject => rfl
  | resp ok body =>
    cases ok with
    | false => rfl
    | true =>
      cases body with
      | none => rfl
      | some rates =>
        cases h : rates.getLast? with
        | none => simp [h]
        | some r => simp [h]

/-- C8 counterexample: the reference date is formatted with `toISOString()`
before the `try` block, and `toISOString` throws a `RangeError` on an
Invalid Date, so for an unparseable transaction date (which the parsers do
emit, per C6) rate resolution raises to the caller even when the external
rate source is fully healthy — refuting "for every transaction date …
never raises an exception … always returns a numeric rate". -/
theorem claim8_rate_chain_cex :
    (jsNewDate ("garbage")).valid = false ∧
    getNBPExchangeRate ("USD") (jsNewDate ("garbage"))
        (FetchOutcome.resp true (some [4])) (FetchOutcome.resp true (some [4])) =
      Except.error ("RangeError: Invalid time value") := by
  have hUp : ("USD").toUpper = "USD" := by
    rw [String.toUpper, String.map_eq]
    decide
  refine ⟨by decide, ?_⟩
  unfold getNBPExchangeRate
  simp only [hUp]
  rfl

/-- C8 (amended): for every currency code, every VALID transaction date and
every behaviour of the external rate source on the exact-date and widened
queries (unreachable, non-OK response, malformed body, empty rate list, or
data), `getNBPExchangeRate` catches every internal throw and returns
exactly the spec's chain: PLN resolves to 1, else the exact reference-date
rate when available, else the most recent rate of the 7-day widened window,
else the built-in approximate fallback — always a numeric rate.  For an
invalid date the pre-`try` `toISOString()` call raises instead
(`claim8_rate_chain_cex`). -/
theorem claim8_rate_chain (currencyCode : String) (transactionDate : JsDate)
    (exact range : FetchOutcome) (hvalid : transactionDate.valid = true) :
    getNBPExchangeRate currencyCode transactionDate exact range =
      Except.ok (rateChainSpec currencyCode exact range) := by
  have hrv : (getLastBusinessDay transactionDate).valid = true := hvalid
  unfold getNBPExchangeRate rateChainSpec
  by_cases hp : currencyCode.toUpper = "PLN"
  · simp [hp]
  · simp only [hp, if_false]
    rw [show formatDateForAPI (getLastBusinessDay transactionDate) =
        Except.ok (toString (getLastBusinessDay transactionDate).year ++ "_" ++
          toString (getLastBusinessDay transactionDate).time) by
      unfold formatDateForAPI
      simp [hrv]]
    rw [nearest_eq currencyCode (getLastBusinessDay transactionDate) range hrv]
    cases exact with
    | reject => rfl
    | resp ok body =>
      cases ok with
      | false => rfl
      | true =>
        cases body with
        | none => rfl
        | some rates =>
          cases rates with
          | nil => rfl
          | cons r rs => rfl

/-- C8 witness: the amended theorem's validity hypothesis holds at a
concrete valid date, where resolution indeed yields the chain's rate. -/
theorem claim8_rate_chain_witness :
    (JsDate.mk true 0 2021).valid = true ∧
    getNBPExchangeRate ("USD") (JsDate.mk true 0 2021)
        (FetchOutcome.resp true (some [4])) (FetchOutcome.reject) =
      Except.ok (rateChainSpec ("USD") (FetchOutcome.resp true (some [4])) (FetchOutcome.reject)) :=
  ⟨rfl, claim8_rate_chain ("USD") (JsDate.mk true 0 2021)
    (FetchOutcome.resp true (some [4])) (FetchOutcome.reject) rfl⟩

theorem jsAbs_nonneg (q : ℚ) : 0 ≤ jsAbs q := by
  unfold jsAbs
  split
  · linarith
  · linarith

/-- C6 counterexample: a Binance row whose date string is nonempty but
unparseable (an invalid JS date) is NOT dropped — the parser still returns a
transaction — contradicting the claim that a row is dropped exactly when the
date is missing or unparseable (and Scenario D's one warning). -/
theorem claim6_drop_condition_cex :
    (parseBinanceRow 0 c6GarbageRow [] 0).isSome = true ∧
    (jsNewDate ("garbage")).valid = false := by
  constructor
  · decide
  · decide

/-- C6 (amended): the Binance row parser returns absent exactly when the
date string (`UTC_Time`, falling back to `Date`) or the `Coin` field is
missing or empty; a nonempty but unparseable date does not drop the row
(it yields a transaction carrying an invalid date), and a missing numeric
`Change` field defaults the quantity to zero instead of dropping the row. -/
theorem claim6_drop_condition (now : Int) (row : Row) (hdrs : List String) (index : Nat) :
    (parseBinanceRow now row hdrs index = none ↔
      (jsOr (row.lookup ("UTC_Time")) (jsOr (row.lookup ("Date")) ("")) = "" ∨
        (row.lookup ("Coin")).getD ("") = "")) ∧
    (row.lookup ("Change") = none →
      match parseBinanceRow now row hdrs index with
      | some t => t.cryptoAmount = 0
      | none => True) := by
  constructor
  · unfold parseBinanceRow
    by_cases hP : (jsOr (row.lookup ("UTC_Time")) (jsOr (row.lookup ("Date")) ("")) = "" ∨
        (row.lookup ("Coin")).getD ("") = "")
    · simp [hP]
    · simp [hP]
  · intro hchange
    unfold parseBinanceRow
    by_cases hP : (jsOr (row.lookup ("UTC_Time")) (jsOr (row.lookup ("Date")) ("")) = "" ∨
        (row.lookup ("Coin")).getD ("") = "")
    · simp [hP]
    · simp only [hP, if_false]
      simp [hchange, jsParseFloatOr0, jsAbs]

/-- C6 witness: the amended theorem's hypothesis holds at a concrete row
lacking the `Change` field, whose parsed quantity is 0. -/
theorem claim6_drop_condition_witness :
    c6NoChangeRow.lookup ("Change") = none ∧
    (match parseBinanceRow 0 c6NoChangeRow [] 0 with
     | some t => t.cryptoAmount = 0
     | none => True) :=
  ⟨rfl, (claim6_drop_condition 0 c6NoChangeRow [] 0).2 rfl⟩

/-- C7 counterexample: the Kraken and Coinbase parsers pass parsed values
through without taking absolute values, so rows with negative `vol`/`cost`
(resp. quantity/total) yield transactions with negative `cryptoAmount` and
`fiatAmount`, contradicting the claimed non-negativity invariant. -/
theorem claim7_nonneg_cex :
    (parseKrakenRow 0 c7KrakenRow [] 0).map (fun t => t.cryptoAmount) = some (-2) ∧
    (parseKrakenRow 0 c7KrakenRow [] 0).map (fun t => t.fiatAmount) = some (-10) ∧
    (parseCoinbaseRow 0 c7CoinbaseRow [] 0).map (fun t => t.cryptoAmount) = some (-3) ∧
    ¬ ((0 : ℚ) ≤ -2) := by
  have hk1 : (parseKrakenRow 0 c7KrakenRow [] 0).map (fun t => t.cryptoAmount) =
      some ((-1 : ℚ) * ((2 : ℕ) : ℚ)) := rfl
  have hk2 : (parseKrakenRow 0 c7KrakenRow [] 0).map (fun t => t.fiatAmount) =
      some ((-1 : ℚ) * ((10 : ℕ) : ℚ)) := rfl
  have hc1 : (parseCoinbaseRow 0 c7CoinbaseRow [] 0).map (fun t => t.cryptoAmount) =
      some ((-1 : ℚ) * ((3 : ℕ) : ℚ)) := rfl
  refine ⟨?_, ?_, ?_, by norm_num⟩
  · rw [hk1]
    norm_num
  · rw [hk2]
    norm_num
  · rw [hc1]
    norm_num

/-- C7 (amended): the Binance, BitBay and generic parsers do emit
non-negative `cryptoAmount` and `fiatAmount` for every row (absolute values
or the constant 0); the Kraken and Coinbase parsers do not take absolute
values, so their outputs carry the input's sign. -/
theorem claim7_abs_parsers (now : Int) (row : Row) (hdrs : List String) (index : Nat) :
    optNonneg (parseBinanceRow now row hdrs index) ∧
    optNonneg (parseBitBayRow now row hdrs index) ∧
    optNonneg (parseGenericRow now row hdrs index) := by
  refine ⟨?_, ?_, ?_⟩
  · simp only [parseBinanceRow]
    split
    · exact trivial
    · exact ⟨jsAbs_nonneg _, le_refl 0⟩
  · simp only [parseBitBayRow]
    split
    · exact trivial
    · exact ⟨jsAbs_nonneg _, le_refl 0⟩
  · simp only [parseGenericRow]
    split
    · exact trivial
    · split
      · exact trivial
      · refine ⟨?_, ?_⟩
        · show (0 : ℚ) ≤ (match List.find? (fun h => (["amount", "kwota", "quantity", "vol", "volume", "size"]).contains h.toLower) hdrs with
            | some k => jsAbs (jsParseFloatOr0 (row.lookup k))
            | none => (0 : ℚ) : ℚ)
          split
          · exact jsAbs_nonneg _
          · exact le_refl 0
        · show (0 : ℚ) ≤ (match List.find? (fun h => (["price", "cena", "total", "cost", "value", "wartość"]).contains h.toLower) hdrs with
            | some k => jsAbs (jsParseFloatOr0 (row.lookup k))
            | none => (0 : ℚ) : ℚ)
          split
          · exact jsAbs_nonneg _
          · exact le_refl 0

/-- C9 counterexample: two runs of the engine on identical inputs and
identical resolved rates, performed at different clock/random readings,
do not produce identical TaxCalculation values: the `id` field (built from
`Date.now()` and `Math.random()`) differs, so not every field is equal. -/
theorem claim9_determinism_cex :
    (calculateTax c9Rates [c9File] 0 ("n") 0 ("a")).id ≠
      (calculateTax c9Rates [c9File] 0 ("n") 1 ("b")).id ∧
    (calculateTax c9Rates [c9File] 0 ("n") 0 ("a")).createdAt ≠
      (calculateTax c9Rates [c9File] 0 ("n") 1 ("b")).createdAt := by
  constructor
  · decide
  · decide

/-- C9 (amended): for fixed input batches, carry-forward, name and resolved
rates, repeated engine runs agree on every result field — the years list,
all four grand totals, the name and the retained files; only the metadata
fields `id`, `createdAt` and `updatedAt`, which read the clock and the
random generator, can differ between runs. -/
theorem claim9_determinism (rates : String → JsDate → ℚ) (files : List ParsedFile)
    (carry : ℚ) (name : String) (now₁ now₂ : Int) (rand₁ rand₂ : String) :
    (calculateTax rates files carry name now₁ rand₁).years =
      (calculateTax rates files carry name now₂ rand₂).years ∧
    (calculateTax rates files carry name now₁ rand₁).totalRevenue =
      (calculateTax rates files carry name now₂ rand₂).totalRevenue ∧
    (calculateTax rates files carry name now₁ rand₁).totalCosts =
      (calculateTax rates files carry name now₂ rand₂).totalCosts ∧
    (calculateTax rates files carry name now₁ rand₁).totalIncome =
      (calculateTax rates files carry name now₂ rand₂).totalIncome ∧
    (calculateTax rates files carry name now₁ rand₁).totalTax =
      (calculateTax rates files carry name now₂ rand₂).totalTax ∧
    (calculateTax rates files carry name now₁ rand₁).name =
      (calculateTax rates files carry name now₂ rand₂).name ∧
    (calculateTax rates files carry name now₁ rand₁).files =
      (calculateTax rates files carry name now₂ rand₂).files :=
  ⟨rfl, rfl, rfl, rfl, rfl, rfl, rfl⟩

/-- C10 counterexample: for a transaction with `fiatCurrency ≠ PLN` and
`fiatAmount = 0` that carries a fee, the amount-resolution step still
performs a rate lookup (for the fee): its output depends on the rate
source, refuting "performs no rate lookup at all". -/
theorem claim10_no_lookup_cex :
    (resolveTx c10RatesA c10FeeTx).feeInPLN = some (5 * (4 : ℚ)) ∧
    (resolveTx c10RatesB c10FeeTx).feeInPLN = some (5 * (5 : ℚ)) ∧
    resolveTx c10RatesA c10FeeTx ≠ resolveTx c10RatesB c10FeeTx := by
  have h1 : (resolveTx c10RatesA c10FeeTx).feeInPLN = some (5 * (4 : ℚ)) := rfl
  have h2 : (resolveTx c10RatesB c10FeeTx).feeInPLN = some (5 * (5 : ℚ)) := rfl
  refine ⟨h1, h2, fun h => ?_⟩
  rw [h, h2] at h1
  have h3 : (5 * (5 : ℚ)) = 5 * 4 := Option.some.inj h1
  norm_num at h3

/-- C10 (amended): a transaction with non-PLN currency and zero fiat amount
gets `amountInPLN = 0` and `nbpExchangeRate = 1` with no rate lookup for the
amount — and no lookup at all when it has no fee (a fee still triggers one);
every Binance-parsed transaction has `fiatAmount = 0` and no fee, and any
resolved transaction with zero PLN amount and no fee contributes exactly 0
to a year's revenue and current-year cost. -/
theorem claim10_zero_amount (rates rates₂ : String → JsDate → ℚ) (tx : Transaction)
    (_hc : tx.fiatCurrency ≠ "PLN") (h0 : tx.fiatAmount = 0) :
    (resolveTx rates tx).amountInPLN = some 0 ∧
    (resolveTx rates tx).nbpExchangeRate = some 1 ∧
    (tx.fee = none → resolveTx rates tx = resolveTx rates₂ tx) ∧
    (∀ (now : Int) (row : Row) (hdrs : List String) (index : Nat),
      match parseBinanceRow now row hdrs index with
      | some t => t.fiatAmount = 0 ∧ t.fee = none
      | none => True) ∧
    (∀ (year : Int) (txs : List Transaction) (c : ℚ) (t : Transaction),
      t.amountInPLN = some 0 → t.feeInPLN = none →
      (calculateYearTax year (t :: txs) c).revenue = (calculateYearTax year txs c).revenue ∧
      (calculateYearTax year (t :: txs) c).currentYearCosts = (calculateYearTax year txs c).currentYearCosts) := by
  have hcond : ¬ (tx.fiatCurrency ≠ "PLN" ∧ 0 < tx.fiatAmount) := by
    rw [h0]
    exact fun hand => lt_irrefl 0 hand.2
  refine ⟨?_, ?_, ?_, ?_, ?_⟩
  · simp only [resolveTx, hcond, if_false]
    split
    · split
      · simp [h0]
      · simp [h0]
    · simp [h0]
  · simp only [resolveTx, hcond, if_false]
    split
    · split
      · rfl
      · rfl
    · rfl
  · intro hfee
    simp [resolveTx, hcond, hfee, jsTruthyQ]
  · intro now row hdrs index
    by_cases hP : (jsOr (row.lookup ("UTC_Time")) (jsOr (row.lookup ("Date")) ("")) = "" ∨
        (row.lookup ("Coin")).getD ("") = "")
    · simp [parseBinanceRow, hP]
    · simp [parseBinanceRow, hP]
  · intro year txs c t ha hf
    have hrev : revenueSpec (t :: txs) = revenueSpec txs := by
      unfold revenueSpec
      rw [List.filter_cons]
      by_cases ht : isTaxableSale t = true
      · simp [ht, ha]
      · simp only [Bool.not_eq_true] at ht
        simp [ht]
    have hcost : costSpec (t :: txs) = costSpec txs := by
      unfold costSpec
      rw [List.filter_cons]
      by_cases ht : isDeductibleCost t = true
      · simp [ht, ha, hf]
      · simp only [Bool.not_eq_true] at ht
        simp [ht]
    constructor
    · rw [cyt_revenue, cyt_revenue, revenue_fold_eq, revenue_fold_eq, hrev]
    · rw [cyt_costs, cyt_costs, cost_fold_eq, cost_fold_eq, hcost]

/-- C10 witness: the amended theorem's hypotheses hold at a concrete
zero-amount USD transaction without fee, which resolves to `amountInPLN = 0`
and rate 1 and identically under two different rate sources. -/
theorem claim10_zero_amount_witness :
    (c10WTx.fiatCurrency ≠ "PLN" ∧ c10WTx.fiatAmount = 0 ∧ c10WTx.fee = none) ∧
    ((resolveTx c10RatesA c10WTx).amountInPLN = some 0 ∧
     (resolveTx c10RatesA c10WTx).nbpExchangeRate = some 1 ∧
     resolveTx c10RatesA c10WTx = resolveTx c10RatesB c10WTx) := by
  have h := claim10_zero_amount c10RatesA c10RatesB c10WTx (by decide) rfl
  exact ⟨⟨by decide, rfl, rfl⟩, h.1, h.2.1, h.2.2.1 rfl⟩

theorem runYears_chain (b : List (Int × List Transaction)) :
    ∀ (ys : List Int) (c : ℚ) (i : ℕ), carryChain (runYears b ys c) i
  | [], _, _ => trivial
  | y :: ys, c, 0 => by
    cases ys with
    | nil => exact trivial
    | cons y' ys' =>
      show (calculateYearTax y' ((b.lookup y').getD [])
          (calculateYearTax y ((b.lookup y).getD []) c).carryForwardCosts).previousYearsCosts =
        (calculateYearTax y ((b.lookup y).getD []) c).carryForwardCosts
      rw [cyt_prev]
      have h2dp : is2dp ((calculateYearTax y ((b.lookup y).getD []) c).carryForwardCosts) := by
        rw [cyt_carry]
        exact round2_is2dp _
      exact is2dp_round2_eq h2dp
  | y :: ys, c, (i + 1) => by
    show carryChain (runYears b ys (calculateYearTax y ((b.lookup y).getD []) c).carryForwardCosts) i
    exact runYears_chain b ys _ i

theorem runYears_fields (b : List (Int × List Transaction)) :
    ∀ (ys : List Int) (c : ℚ), ∀ ty ∈ runYears b ys c,
      is2dp ty.revenue ∧ is2dp ty.currentYearCosts ∧ is2dp ty.income ∧ is2dp ty.tax
  | [], _ => by
    intro ty h
    simp [runYears] at h
  | y :: ys, c => by
    intro ty h
    simp only [runYears] at h
    rcases List.mem_cons.mp h with rfl | h'
    · exact ⟨by rw [cyt_revenue]; exact round2_is2dp _,
        by rw [cyt_costs]; exact round2_is2dp _,
        by rw [cyt_income]; exact round2_is2dp _,
        by rw [cyt_tax]; exact round2_is2dp _⟩
    · exact runYears_fields b ys _ ty h'

theorem round2_total_eq (l : List TaxYear) (f : TaxYear → ℚ) (h : ∀ y ∈ l, is2dp (f y)) :
    round2 (l.foldl (fun sum y => sum + f y) 0) = (l.map f).sum := by
  rw [foldlTY_add_eq f l 0, zero_add]
  refine is2dp_round2_eq (is2dp_sum _ ?_)
  intro q hq
  obtain ⟨y, hy, rfl⟩ := List.mem_map.mp hq
  exact h y hy

/-- C2 (amended): within a year all accumulation is unrounded and each
produced figure is rounded once; but the carry-forward consumed by the next
produced year is the previous year's already-rounded `carryForwardCosts`
field (not the unrounded `max(totalCosts − revenue, 0)`), so the 2-decimal
rounding of a year's carry-forward does propagate into later years:
for consecutive produced years, `previousYearsCosts` of the later equals
`carryForwardCosts` of the earlier exactly. -/
theorem claim2_carry_is_rounded (rates : String → JsDate → ℚ) (files : List ParsedFile)
    (carry : ℚ) (name : String) (now : Int) (rand : String) (i : ℕ) :
    carryChain (calculateTax rates files carry name now rand).years i :=
  runYears_chain _ _ _ i

/-- C3 (amended): the grand totals `totalRevenue`, `totalIncome` and
`totalTax` are the arithmetic sums of the corresponding per-year fields;
the grand `totalCosts`, however, is the sum of the per-year
`currentYearCosts` fields (not of the per-year `totalCosts` fields, which
additionally contain the inherited carry-forward). -/
theorem claim3_totals (rates : String → JsDate → ℚ) (files : List ParsedFile)
    (carry : ℚ) (name : String) (now : Int) (rand : String) :
    (calculateTax rates files carry name now rand).totalRevenue =
      ((calculateTax rates files carry name now rand).years.map (fun y => y.revenue)).sum ∧
    (calculateTax rates files carry name now rand).totalCosts =
      ((calculateTax rates files carry name now rand).years.map (fun y => y.currentYearCosts)).sum ∧
    (calculateTax rates files carry name now rand).totalIncome =
      ((calculateTax rates files carry name now rand).years.map (fun y => y.income)).sum ∧
    (calculateTax rates files carry name now rand).totalTax =
      ((calculateTax rates files carry name now rand).years.map (fun y => y.tax)).sum := by
  refine ⟨?_, ?_, ?_, ?_⟩
  · exact round2_total_eq _ _ (fun ty hty => (runYears_fields _ _ _ ty hty).1)
  · exact round2_total_eq _ _ (fun ty hty => (runYears_fields _ _ _ ty hty).2.1)
  · exact round2_total_eq _ _ (fun ty hty => (runYears_fields _ _ _ ty hty).2.2.1)
  · exact round2_total_eq _ _ (fun ty hty => (runYears_fields _ _ _ ty hty).2.2.2)

theorem c3_revB : revenueSpec [c3BuyR] = 0 := by
  simp [revenueSpec, List.filter_cons, List.filter_nil,
    show isTaxableSale c3BuyR = false from rfl]

theorem c3_costB : costSpec [c3BuyR] = 100 := by
  simp only [costSpec, List.filter_cons, List.filter_nil,
    show isDeductibleCost c3BuyR = true from rfl, if_true]
  simp [c3BuyR, c3Buy]

theorem c3_revS : revenueSpec [c3SellR] = 100 := by
  simp only [revenueSpec, List.filter_cons, List.filter_nil,
    show isTaxableSale c3SellR = true from rfl, if_true]
  simp [c3SellR, c3Sell]

theorem c3_costS : costSpec [c3SellR] = 0 := by
  simp [costSpec, List.filter_cons, List.filter_nil,
    show isDeductibleCost c3SellR = false from rfl]

/-- C3 counterexample: with a 100 PLN acquisition in 2020 and a 100 PLN
disposal in 2021, the engine's grand `totalCosts` is 100 (the sum of the
per-year `currentYearCosts`), while the sum of the per-year `totalCosts`
fields is 200, because 2021's `totalCosts` re-counts the inherited
carry-forward; the claimed equality `totalCosts = Σ totalCosts` fails. -/
theorem claim3_totals_cex :
    (calculateTax c3Rates [c3File] 0 ("n") 0 ("r")).totalCosts = 100 ∧
    ((calculateTax c3Rates [c3File] 0 ("n") 0 ("r")).years.map (fun y => y.totalCosts)).sum = 200 ∧
    ¬ ((100 : ℚ) = 200) := by
  have hyears : (calculateTax c3Rates [c3File] 0 ("n") 0 ("r")).years =
      [calculateYearTax 2020 [c3BuyR] 0,
       calculateYearTax 2021 [c3SellR] ((calculateYearTax 2020 [c3BuyR] 0).carryForwardCosts)] := rfl
  have hcarry : (calculateYearTax 2020 [c3BuyR] 0).carryForwardCosts = 100 := by
    rw [cyt_carry, revenue_fold_eq, cost_fold_eq, jsMax_eq_max, c3_revB, c3_costB]
    rw [max_eq_left (by norm_num : (0 : ℚ) ≤ 100 + 0 - 0)]
    norm_num [round2]
  have hcyc0 : (calculateYearTax 2020 [c3BuyR] 0).currentYearCosts = 100 := by
    rw [cyt_costs, cost_fold_eq, c3_costB]
    norm_num [round2]
  have hcyc1 : (calculateYearTax 2021 [c3SellR] 100).currentYearCosts = 0 := by
    rw [cyt_costs, cost_fold_eq, c3_costS]
    norm_num [round2]
  have htc0 : (calculateYearTax 2020 [c3BuyR] 0).totalCosts = 100 := by
    rw [cyt_total, cost_fold_eq, c3_costB]
    norm_num [round2]
  have htc1 : (calculateYearTax 2021 [c3SellR] 100).totalCosts = 100 := by
    rw [cyt_total, cost_fold_eq, c3_costS]
    norm_num [round2]
  have htotal : (calculateTax c3Rates [c3File] 0 ("n") 0 ("r")).totalCosts =
      round2 (((calculateTax c3Rates [c3File] 0 ("n") 0 ("r")).years).foldl
        (fun sum y => sum + y.currentYearCosts) 0) := rfl
  refine ⟨?_, ?_, by norm_num⟩
  · rw [htotal, hyears, hcarry]
    simp only [List.foldl_cons, List.foldl_nil, hcyc0, hcyc1]
    norm_num [round2]
  · rw [hyears, hcarry]
    simp only [List.map_cons, List.map_nil, List.sum_cons, List.sum_nil, htc0, htc1]
    norm_num

theorem c2_revB : revenueSpec [c2BuyR] = 0 := by
  simp [revenueSpec, List.filter_cons, List.filter_nil,
    show isTaxableSale c2BuyR = false from rfl]

theorem c2_costB : costSpec [c2BuyR] = 14 / 1000 := by
  simp only [costSpec, List.filter_cons, List.filter_nil,
    show isDeductibleCost c2BuyR = true from rfl, if_true]
  simp [c2BuyR, c2Buy]

theorem c2_revS : revenueSpec [c2SellR] = 18 / 1000 := by
  simp only [revenueSpec, List.filter_cons, List.filter_nil,
    show isTaxableSale c2SellR = true from rfl, if_true]
  simp [c2SellR, c2Sell]

theorem c2_costS : costSpec [c2SellR] = 0 := by
  simp [costSpec, List.filter_cons, List.filter_nil,
    show isDeductibleCost c2SellR = false from rfl]

/-- C2 counterexample: a 0.014 PLN acquisition in 2020 and a 0.018 PLN
disposal in 2021.  The unrounded carry-forward of 2020 is
max(totalCosts − revenue, 0) = 0.014, but the engine threads the rounded
0.01 into 2021: the produced incomes are [0, 0.01], whereas consuming the
unrounded 0.014 would make 2021's income round2(0.018 − 0.014) = 0.
Rounding therefore does compound across years, refuting the claim. -/
theorem claim2_carry_is_rounded_cex :
    ((calculateTax c2Rates [c2File] 0 ("n") 0 ("r")).years.map (fun y => y.income)) = [0, 1 / 100] ∧
    (calculateYearTax 2021 [c2SellR] (max ((14 : ℚ) / 1000 - 0) 0)).income = 0 ∧
    ¬ ((0 : ℚ) = 1 / 100) := by
  have hyears : (calculateTax c2Rates [c2File] 0 ("n") 0 ("r")).years =
      [calculateYearTax 2020 [c2BuyR] 0,
       calculateYearTax 2021 [c2SellR] ((calculateYearTax 2020 [c2BuyR] 0).carryForwardCosts)] := rfl
  have hcarry : (calculateYearTax 2020 [c2BuyR] 0).carryForwardCosts = 1 / 100 := by
    rw [cyt_carry, revenue_fold_eq, cost_fold_eq, jsMax_eq_max, c2_revB, c2_costB]
    rw [max_eq_left (by norm_num : (0 : ℚ) ≤ 14 / 1000 + 0 - 0)]
    norm_num [round2]
  have hinc0 : (calculateYearTax 2020 [c2BuyR] 0).income = 0 := by
    rw [cyt_income, revenue_fold_eq, cost_fold_eq, jsMax_eq_max, c2_revB, c2_costB]
    rw [max_eq_right (by norm_num : (0 : ℚ) - (14 / 1000 + 0) ≤ 0)]
    norm_num [round2]
  have hinc1 : (calculateYearTax 2021 [c2SellR] (1 / 100)).income = 1 / 100 := by
    rw [cyt_income, revenue_fold_eq, cost_fold_eq, jsMax_eq_max, c2_revS, c2_costS]
    rw [max_eq_left (by norm_num : (0 : ℚ) ≤ 18 / 1000 - (0 + 1 / 100))]
    norm_num [round2]
  refine ⟨?_, ?_, by norm_num⟩
  · rw [hyears, hcarry]
    simp only [List.map_cons, List.map_nil, hinc0, hinc1]
  · rw [cyt_income, revenue_fold_eq, cost_fold_eq, jsMax_eq_max, c2_revS, c2_costS]
    rw [max_eq_left (by norm_num : (0 : ℚ) ≤ 14 / 1000 - 0)]
    rw [max_eq_left (by norm_num : (0 : ℚ) ≤ 18 / 1000 - (0 + (14 / 1000 - 0)))]
    norm_num [round2]

/-- C1 counterexample: the returned TaxYear fields are the 2-decimal
roundings of the claimed expressions, not the raw sums: for a single
deductible transaction of 0.014 PLN the returned `currentYearCosts` is
0.01, while the sum of PLN-equivalent amounts (plus fees) is 0.014. -/
theorem claim1_rounding_cex :
    (calculateYearTax 2020 [c1BuyR] 0).currentYearCosts = 1 / 100 ∧
    costSpec [c1BuyR] = 14 / 1000 ∧
    ¬ ((1 : ℚ) / 100 = 14 / 1000) := by
  have hcostB : costSpec [c1BuyR] = 14 / 1000 := by
    simp only [costSpec, List.filter_cons, List.filter_nil,
      show isDeductibleCost c1BuyR = true from rfl, if_true]
    simp [c1BuyR]
  refine ⟨?_, hcostB, by norm_num⟩
  rw [cyt_costs, cost_fold_eq, hcostB]
  norm_num [round2]
